import Mathlib

/-!
Verification of the FnInteligenciaNegocios ETL pipeline.

The repository is a pandas-based ETL for a consumer-lending portfolio.
This file gives a shallow embedding, in Lean, of the parts of the code
that the specification's claims are about:

* the delinquency-bucket classification (`crear_columna_mora_ac` in
  `src/transformadores/analisis_cartera.py` and `crear_columna_mora` in
  `src/procesadores/comportamiento.py`);
* composite-key construction (`crear_llave_cedula_numero` in
  `src/transformadores/base.py`, `crear_llave_cedula_numero_r05` in
  `src/transformadores/r05.py`) together with the identifier cleaner
  `limpiar_columna_identificador`;
* the selective duplicate collapse `manejar_duplicados_ac`
  (`src/transformadores/analisis_cartera.py`);
* the earliest-record join `unir_con_ac_primer_registro`
  (`src/procesadores/crm.py`), including the per-column first-non-null
  semantics of pandas `groupby(...).first()`;
* the billing-date repair `corregir_fechafac`
  (`src/procesadores/cosechas.py`);
* the gap-fill over the pivoted delinquency columns
  (`procesar_columnas_mora` and its helpers in
  `src/procesadores/comportamiento.py`);
* the package import wiring of `src/transformadores/__init__.py` and
  `src/procesadores/__init__.py`;
* the dataset-union step `unir_datasets`, which is referenced by
  `src/procesadores/procesador.py` but defined nowhere in the sources,
  and is therefore modelled from the specification.

Pandas tables are modelled as Lean lists of records, machine numbers as
`ℚ`/`ℤ`, nullable cells as `Option`, and `NaN`/`NaT` as `none`.  Every
definition is executable so that theorems with hypotheses can be
instantiated on concrete inputs.
-/

/-! ## Delinquency buckets

`crear_columna_mora_ac` (analisis_cartera.py, lines 133-166) first coerces
the `diasatras` column with `pd.to_numeric(..., errors='coerce')` — a
non-numeric cell becomes NaN, modelled as `none` — and then assigns the
bucket with `np.select(conditions, choices, default=None)`, which yields
the choice of the first true condition and `None` when no condition holds.
`crear_columna_mora` (comportamiento.py, lines 142-188) repeats the same
conditions and choices verbatim. -/

/-- Value-level embedding of the `np.select` bucket assignment shared by
`crear_columna_mora_ac` and `crear_columna_mora`: the nine conditions are
tried in source order and the first one that holds selects the label;
`none` (NaN after coercion) satisfies no condition. -/
def moraDeDiasatras (d : Option ℚ) : Option String :=
  match d with
  | none => none
  | some v =>
    if v = 0 then some "A1"
    else if 0 < v ∧ v ≤ 30 then some "A2"
    else if 30 < v ∧ v ≤ 60 then some "B1"
    else if 60 < v ∧ v ≤ 90 then some "B2"
    else if 90 < v ∧ v ≤ 120 then some "C1"
    else if 120 < v ∧ v ≤ 150 then some "C2"
    else if 150 < v ∧ v ≤ 180 then some "D1"
    else if 180 < v ∧ v ≤ 210 then some "D2"
    else if 210 < v then some "EE"
    else none

/-- A portfolio row as seen by the bucket step: the (already coerced)
`diasatras` cell. -/
def crear_columna_mora_ac (diasatras : List (Option ℚ)) : List (Option String) :=
  diasatras.map moraDeDiasatras

/-- The nine bucket labels, in the order of `choices` in the source. -/
def morasEscala : List String :=
  ["A1", "A2", "B1", "B2", "C1", "C2", "D1", "D2", "EE"]

/-- Severity of a label: its position in the source's `choices` list. -/
def severidad (l : String) : ℕ := morasEscala.indexOf l

/-- Level of a non-negative days-past-due value: the index, in
`morasEscala`, of the bucket the source assigns.  Used only to organise
the proofs about `moraDeDiasatras`. -/
def nivelMora (v : ℚ) : ℕ :=
  if v ≤ 0 then 0
  else if v ≤ 30 then 1
  else if v ≤ 60 then 2
  else if v ≤ 90 then 3
  else if v ≤ 120 then 4
  else if v ≤ 150 then 5
  else if v ≤ 180 then 6
  else if v ≤ 210 then 7
  else 8

theorem nivelMora_le_eight (v : ℚ) : nivelMora v ≤ 8 := by
  simp only [nivelMora]
  split_ifs <;> norm_num

set_option maxHeartbeats 2000000 in
theorem nivelMora_mono {v w : ℚ} (h : v ≤ w) : nivelMora v ≤ nivelMora w := by
  simp only [nivelMora]
  split_ifs with g1 g2 g3 g4 g5 g6 g7 g8 g9 g10 g11 g12 g13 g14 g15 g16 g17 g18 g19 g20 g21 g22 g23 g24 g25 g26 g27 g28 g29 g30 g31 g32 g33 g34 g35 g36 g37 g38 g39 g40 g41 g42 g43 g44 g45 g46 g47 g48 g49 g50 g51 g52 g53 g54 g55 g56 g57 g58 g59 g60 g61 g62 g63 g64 g65 g66 g67 g68 g69 g70 g71 g72 g73 g74 g75 g76 g77 g78 g79 g80 <;> first | decide | (exfalso; linarith)

theorem moraDeDiasatras_nonneg_eq (v : ℚ) (hv : 0 ≤ v) :
    moraDeDiasatras (some v) = morasEscala.get? (nivelMora v) := by
  rcases eq_or_lt_of_le hv with h0 | h0
  · have hn : nivelMora v = 0 := by
      simp only [nivelMora]; rw [if_pos (le_of_eq h0.symm)]
    simp only [moraDeDiasatras]
    rw [if_pos h0.symm, hn]; rfl
  · have hv0 : ¬ v = 0 := h0.ne'
    have hvle : ¬ v ≤ 0 := not_le.mpr h0
    rcases le_or_lt v 30 with h1 | h1
    · have hn : nivelMora v = 1 := by
        simp only [nivelMora]; rw [if_neg hvle, if_pos h1]
      simp only [moraDeDiasatras]
      rw [if_neg hv0, if_pos ⟨h0, h1⟩, hn]; rfl
    · rcases le_or_lt v 60 with h2 | h2
      · have hn : nivelMora v = 2 := by
          simp only [nivelMora]
          rw [if_neg hvle, if_neg (not_le.mpr h1), if_pos h2]
        simp only [moraDeDiasatras]
        rw [if_neg hv0, if_neg (fun hc => absurd hc.2 (not_le.mpr h1)),
          if_pos ⟨h1, h2⟩, hn]; rfl
      · rcases le_or_lt v 90 with h3 | h3
        · have hn : nivelMora v = 3 := by
            simp only [nivelMora]
            rw [if_neg hvle, if_neg (not_le.mpr h1), if_neg (not_le.mpr h2),
              if_pos h3]
          simp only [moraDeDiasatras]
          rw [if_neg hv0, if_neg (fun hc => absurd hc.2 (not_le.mpr h1)),
            if_neg (fun hc => absurd hc.2 (not_le.mpr h2)), if_pos ⟨h2, h3⟩, hn]
          rfl
        · rcases le_or_lt v 120 with h4 | h4
          · have hn : nivelMora v = 4 := by
              simp only [nivelMora]
              rw [if_neg hvle, if_neg (not_le.mpr h1), if_neg (not_le.mpr h2),
                if_neg (not_le.mpr h3), if_pos h4]
            simp only [moraDeDiasatras]
            rw [if_neg hv0, if_neg (fun hc => absurd hc.2 (not_le.mpr h1)),
              if_neg (fun hc => absurd hc.2 (not_le.mpr h2)),
              if_neg (fun hc => absurd hc.2 (not_le.mpr h3)), if_pos ⟨h3, h4⟩, hn]
            rfl
          · rcases le_or_lt v 150 with h5 | h5
            · have hn : nivelMora v = 5 := by
                simp only [nivelMora]
                rw [if_neg hvle, if_neg (not_le.mpr h1), if_neg (not_le.mpr h2),
                  if_neg (not_le.mpr h3), if_neg (not_le.mpr h4), if_pos h5]
              simp only [moraDeDiasatras]
              rw [if_neg hv0, if_neg (fun hc => absurd hc.2 (not_le.mpr h1)),
                if_neg (fun hc => absurd hc.2 (not_le.mpr h2)),
                if_neg (fun hc => absurd hc.2 (not_le.mpr h3)),
                if_neg (fun hc => absurd hc.2 (not_le.mpr h4)), if_pos ⟨h4, h5⟩, hn]
              rfl
            · rcases le_or_lt v 180 with h6 | h6
              · have hn : nivelMora v = 6 := by
                  simp only [nivelMora]
                  rw [if_neg hvle, if_neg (not_le.mpr h1), if_neg (not_le.mpr h2),
                    if_neg (not_le.mpr h3), if_neg (not_le.mpr h4),
                    if_neg (not_le.mpr h5), if_pos h6]
                simp only [moraDeDiasatras]
                rw [if_neg hv0, if_neg (fun hc => absurd hc.2 (not_le.mpr h1)),
                  if_neg (fun hc => absurd hc.2 (not_le.mpr h2)),
                  if_neg (fun hc => absurd hc.2 (not_le.mpr h3)),
                  if_neg (fun hc => absurd hc.2 (not_le.mpr h4)),
                  if_neg (fun hc => absurd hc.2 (not_le.mpr h5)), if_pos ⟨h5, h6⟩, hn]
                rfl
              · rcases le_or_lt v 210 with h7 | h7
                · have hn : nivelMora v = 7 := by
                    simp only [nivelMora]
                    rw [if_neg hvle, if_neg (not_le.mpr h1), if_neg (not_le.mpr h2),
                      if_neg (not_le.mpr h3), if_neg (not_le.mpr h4),
                      if_neg (not_le.mpr h5), if_neg (not_le.mpr h6), if_pos h7]
                  simp only [moraDeDiasatras]
                  rw [if_neg hv0, if_neg (fun hc => absurd hc.2 (not_le.mpr h1)),
                    if_neg (fun hc => absurd hc.2 (not_le.mpr h2)),
                    if_neg (fun hc => absurd hc.2 (not_le.mpr h3)),
                    if_neg (fun hc => absurd hc.2 (not_le.mpr h4)),
                    if_neg (fun hc => absurd hc.2 (not_le.mpr h5)),
                    if_neg (fun hc => absurd hc.2 (not_le.mpr h6)), if_pos ⟨h6, h7⟩, hn]
                  rfl
                · have hn : nivelMora v = 8 := by
                    simp only [nivelMora]
                    rw [if_neg hvle, if_neg (not_le.mpr h1), if_neg (not_le.mpr h2),
                      if_neg (not_le.mpr h3), if_neg (not_le.mpr h4),
                      if_neg (not_le.mpr h5), if_neg (not_le.mpr h6),
                      if_neg (not_le.mpr h7)]
                  simp only [moraDeDiasatras]
                  rw [if_neg hv0, if_neg (fun hc => absurd hc.2 (not_le.mpr h1)),
                    if_neg (fun hc => absurd hc.2 (not_le.mpr h2)),
                    if_neg (fun hc => absurd hc.2 (not_le.mpr h3)),
                    if_neg (fun hc => absurd hc.2 (not_le.mpr h4)),
                    if_neg (fun hc => absurd hc.2 (not_le.mpr h5)),
                    if_neg (fun hc => absurd hc.2 (not_le.mpr h6)),
                    if_neg (fun hc => absurd hc.2 (not_le.mpr h7)),
                    if_pos h7, hn]
                  rfl

theorem severidad_get_nivel (n : ℕ) (hn : n ≤ 8) :
    severidad ((morasEscala.get? n).getD "") = n := by
  interval_cases n <;> rfl

theorem moraDeDiasatras_neg (v : ℚ) (hv : v < 0) :
    moraDeDiasatras (some v) = none := by
  simp only [moraDeDiasatras]
  rw [if_neg hv.ne, if_neg (fun hc => absurd (lt_trans hc.1 hv) (lt_irrefl 0)),
    if_neg (fun hc => absurd hc.1 (by linarith)),
    if_neg (fun hc => absurd hc.1 (by linarith)),
    if_neg (fun hc => absurd hc.1 (by linarith)),
    if_neg (fun hc => absurd hc.1 (by linarith)),
    if_neg (fun hc => absurd hc.1 (by linarith)),
    if_neg (fun hc => absurd hc.1 (by linarith)),
    if_neg (by linarith)]


/-- C4: for every portfolio row with numeric days-past-due `d` the bucket
function assigns exactly the label of the spec's nine ranges; negative or
non-numeric (coerced-to-NaN) values get a null bucket; the operation is
total (one output cell per input row, never raising); and for `d ≥ 0` the
assigned label is monotonically non-decreasing in severity. -/
theorem clasificacion_mora_buckets :
    (∀ v : ℚ, v = 0 → moraDeDiasatras (some v) = some "A1") ∧
    (∀ v : ℚ, 0 < v → v ≤ 30 → moraDeDiasatras (some v) = some "A2") ∧
    (∀ v : ℚ, 30 < v → v ≤ 60 → moraDeDiasatras (some v) = some "B1") ∧
    (∀ v : ℚ, 60 < v → v ≤ 90 → moraDeDiasatras (some v) = some "B2") ∧
    (∀ v : ℚ, 90 < v → v ≤ 120 → moraDeDiasatras (some v) = some "C1") ∧
    (∀ v : ℚ, 120 < v → v ≤ 150 → moraDeDiasatras (some v) = some "C2") ∧
    (∀ v : ℚ, 150 < v → v ≤ 180 → moraDeDiasatras (some v) = some "D1") ∧
    (∀ v : ℚ, 180 < v → v ≤ 210 → moraDeDiasatras (some v) = some "D2") ∧
    (∀ v : ℚ, 210 < v → moraDeDiasatras (some v) = some "EE") ∧
    (∀ v : ℚ, v < 0 → moraDeDiasatras (some v) = none) ∧
    moraDeDiasatras none = none ∧
    (∀ v : ℚ, 0 ≤ v → ∃ l ∈ morasEscala, moraDeDiasatras (some v) = some l) ∧
    (∀ ds : List (Option ℚ), (crear_columna_mora_ac ds).length = ds.length) ∧
    (∀ v w : ℚ, 0 ≤ v → v ≤ w →
      severidad ((moraDeDiasatras (some v)).getD "") ≤
        severidad ((moraDeDiasatras (some w)).getD "")) := by
  have hlvl : ∀ v : ℚ, 0 ≤ v →
      severidad ((moraDeDiasatras (some v)).getD "") = nivelMora v := by
    intro v hv
    rw [moraDeDiasatras_nonneg_eq v hv,
      severidad_get_nivel (nivelMora v) (nivelMora_le_eight v)]
  refine ⟨?_, ?_, ?_, ?_, ?_, ?_, ?_, ?_, ?_, ?_, rfl, ?_, ?_, ?_⟩
  · intro v hv
    rw [moraDeDiasatras_nonneg_eq v (le_of_eq hv.symm)]
    have hn : nivelMora v = 0 := by
      simp only [nivelMora]; rw [if_pos (le_of_eq hv)]
    rw [hn]; rfl
  · intro v h0 h1
    rw [moraDeDiasatras_nonneg_eq v h0.le]
    have hn : nivelMora v = 1 := by
      simp only [nivelMora]; rw [if_neg (not_le.mpr h0), if_pos h1]
    rw [hn]; rfl
  · intro v h0 h1
    rw [moraDeDiasatras_nonneg_eq v (by linarith)]
    have hn : nivelMora v = 2 := by
      simp only [nivelMora]
      rw [if_neg (by push_neg; linarith), if_neg (not_le.mpr h0), if_pos h1]
    rw [hn]; rfl
  · intro v h0 h1
    rw [moraDeDiasatras_nonneg_eq v (by linarith)]
    have hn : nivelMora v = 3 := by
      simp only [nivelMora]
      rw [if_neg (by push_neg; linarith), if_neg (by push_neg; linarith),
        if_neg (not_le.mpr h0), if_pos h1]
    rw [hn]; rfl
  · intro v h0 h1
    rw [moraDeDiasatras_nonneg_eq v (by linarith)]
    have hn : nivelMora v = 4 := by
      simp only [nivelMora]
      rw [if_neg (by push_neg; linarith), if_neg (by push_neg; linarith),
        if_neg (by push_neg; linarith), if_neg (not_le.mpr h0), if_pos h1]
    rw [hn]; rfl
  · intro v h0 h1
    rw [moraDeDiasatras_nonneg_eq v (by linarith)]
    have hn : nivelMora v = 5 := by
      simp only [nivelMora]
      rw [if_neg (by push_neg; linarith), if_neg (by push_neg; linarith),
        if_neg (by push_neg; linarith), if_neg (by push_neg; linarith),
        if_neg (not_le.mpr h0), if_pos h1]
    rw [hn]; rfl
  · intro v h0 h1
    rw [moraDeDiasatras_nonneg_eq v (by linarith)]
    have hn : nivelMora v = 6 := by
      simp only [nivelMora]
      rw [if_neg (by push_neg; linarith), if_neg (by push_neg; linarith),
        if_neg (by push_neg; linarith), if_neg (by push_neg; linarith),
        if_neg (by push_neg; linarith), if_neg (not_le.mpr h0), if_pos h1]
    rw [hn]; rfl
  · intro v h0 h1
    rw [moraDeDiasatras_nonneg_eq v (by linarith)]
    have hn : nivelMora v = 7 := by
      simp only [nivelMora]
      rw [if_neg (by push_neg; linarith), if_neg (by push_neg; linarith),
        if_neg (by push_neg; linarith), if_neg (by push_neg; linarith),
        if_neg (by push_neg; linarith), if_neg (by push_neg; linarith),
        if_neg (not_le.mpr h0), if_pos h1]
    rw [hn]; rfl
  · intro v h0
    rw [moraDeDiasatras_nonneg_eq v (by linarith)]
    have hn : nivelMora v = 8 := by
      simp only [nivelMora]
      rw [if_neg (by push_neg; linarith), if_neg (by push_neg; linarith),
        if_neg (by push_neg; linarith), if_neg (by push_neg; linarith),
        if_neg (by push_neg; linarith), if_neg (by push_neg; linarith),
        if_neg (by push_neg; linarith), if_neg (not_le.mpr h0)]
    rw [hn]; rfl
  · exact moraDeDiasatras_neg
  · intro v hv
    have h8 := nivelMora_le_eight v
    obtain ⟨l, hl⟩ : ∃ l, morasEscala.get? (nivelMora v) = some l := by
      generalize nivelMora v = n at h8
      interval_cases n <;> exact ⟨_, rfl⟩
    exact ⟨l, List.get?_mem hl, (moraDeDiasatras_nonneg_eq v hv).trans hl⟩
  · intro ds
    simp [crear_columna_mora_ac]
  · intro v w hv hvw
    rw [hlvl v hv, hlvl w (le_trans hv hvw)]
    exact nivelMora_mono hvw

/-- Concrete instantiation of `clasificacion_mora_buckets`: days-past-due
45 falls in bucket B1, -5 gets a null bucket, and severity is
non-decreasing between 15 and 100 days. -/
theorem clasificacion_mora_buckets_witness :
    moraDeDiasatras (some 45) = some "B1" ∧
    moraDeDiasatras (some (-5)) = none ∧
    severidad ((moraDeDiasatras (some 15)).getD "") ≤
      severidad ((moraDeDiasatras (some 100)).getD "") :=
  ⟨clasificacion_mora_buckets.2.2.1 45 (by norm_num) (by norm_num),
   (clasificacion_mora_buckets.2.2.2.2.2.2.2.2.2.1) (-5) (by norm_num),
   (clasificacion_mora_buckets.2.2.2.2.2.2.2.2.2.2.2.2.2) 15 100
     (by norm_num) (by norm_num)⟩

/-! ## Identifier cleaning and composite keys

`limpiar_columna_identificador` (base.py, lines 16-64) maps each raw cell
to a string: None/NaN becomes `""`; an integer becomes its decimal string;
a float collapses to an integer string when it has no fractional part;
a string is stripped, float-parsed when possible (collapsing `"123.0"` to
`"123"`) and otherwise returned stripped.  Spreadsheet numerics are
decimal, so a numeric cell is modelled as a scaled decimal
`mant / 10 ^ esc`; the embedded float-parser accepts plain decimal
literals (optional sign, digits, optional fractional part), which is the
shape identifier cells actually take. -/

/-- A raw pandas cell as the identifier cleaner sees it. -/
inductive ValorCrudo where
  | nulo
  | numero (mant : ℤ) (esc : ℕ)
  | texto (s : String)
  deriving Repr, DecidableEq

/-- Numeric value of a list of decimal digits, most significant first. -/
def valorDigitos (l : List Char) : ℕ :=
  l.foldl (fun a c => a * 10 + (c.toNat - 48)) 0

/-- Embedded `float(...)` parser for plain decimal literals:
`[+-]? digits [. digits]?`, with at least one digit.  Returns the value
as a scaled decimal (mantissa, scale). -/
def parseDecimal? (s : String) : Option (ℤ × ℕ) :=
  let paso := fun (cs : List Char) (sgn : ℤ) =>
    let ent := cs.takeWhile Char.isDigit
    let resto := cs.dropWhile Char.isDigit
    match resto with
    | [] => if ent.isEmpty then none else some (sgn * valorDigitos ent, 0)
    | '.' :: fr =>
      if fr.all Char.isDigit && !(ent.isEmpty && fr.isEmpty) then
        some (sgn * (valorDigitos ent * 10 ^ fr.length + valorDigitos fr),
          fr.length)
      else none
    | _ => none
  match s.data with
  | '-' :: resto => paso resto (-1)
  | '+' :: resto => paso resto 1
  | cs => paso cs 1

/-- Decimal rendering of a non-integral scaled decimal, as Python's
`str(float)` renders the finite decimals that occur here: integer part,
a dot, and the fraction digits with trailing zeros stripped. -/
def renderDecimal (m : ℤ) (e : ℕ) : String :=
  let signo := if m < 0 then "-" else ""
  let ent := m.natAbs / 10 ^ e
  let fr := m.natAbs % 10 ^ e
  let dig := Nat.toDigits 10 fr
  let dig := List.replicate (e - dig.length) '0' ++ dig
  let dig := (dig.reverse.dropWhile (· = '0')).reverse
  signo ++ toString ent ++ "." ++ String.mk dig

/-- Cleaning of one identifier cell (`limpiar_valor` inside
`limpiar_columna_identificador`). -/
def limpiar_valor : ValorCrudo → String
  | .nulo => ""
  | .numero m e =>
    if (10 : ℤ) ^ e ∣ m then toString (m / 10 ^ e) else renderDecimal m e
  | .texto s =>
    let t := s.trim
    match parseDecimal? t with
    | some (m, e) =>
      if (10 : ℤ) ^ e ∣ m then toString (m / 10 ^ e) else renderDecimal m e
    | none => t

/-- The columns `crear_llave_cedula_numero` (base.py, lines 92-148)
touches: the two identifier columns (possibly absent) and the key column
it adds. -/
structure MarcoLlave where
  cedula : Option (List ValorCrudo)
  numero : Option (List ValorCrudo)
  cedula_numero : Option (List String)
  deriving Repr, DecidableEq

/-- `crear_llave_cedula_numero` (base.py): when either identifier column
is missing the function logs an error and returns the frame unchanged;
otherwise it cleans both columns and concatenates them around the
separator (default `"-"`). -/
def crear_llave_cedula_numero (df : MarcoLlave)
    (separador : String := "-") : MarcoLlave :=
  match df.cedula, df.numero with
  | some cs, some ns =>
    { cedula := some (cs.map (fun c => ValorCrudo.texto (limpiar_valor c)))
      numero := some (ns.map (fun n => ValorCrudo.texto (limpiar_valor n)))
      cedula_numero :=
        some (List.zipWith (fun c n => c ++ separador ++ n)
          (cs.map limpiar_valor) (ns.map limpiar_valor)) }
  | _, _ => df

/-- The columns `crear_llave_cedula_numero_r05` (r05.py, lines 162-185)
touches; `cedula` and `numero` are already strings because
`convertir_tipos_r05` cleaned them in the preceding step. -/
structure MarcoR05 where
  cedula : Option (List String)
  numero : Option (List String)
  cedula_numero : Option (List String)
  deriving Repr, DecidableEq

/-- The identifier-cleaning part of `convertir_tipos_r05` (r05.py,
lines 150-157): `cedula` and `numero` are cleaned with
`limpiar_columna_identificador` when present. -/
def convertir_tipos_r05 (cedula numero : Option (List ValorCrudo)) :
    MarcoR05 :=
  { cedula := cedula.map (·.map limpiar_valor)
    numero := numero.map (·.map limpiar_valor)
    cedula_numero := none }

/-- `crear_llave_cedula_numero_r05` (r05.py, line 174): despite the
docstring and log text speaking of an underscore, the executed statement
is `df['cedula_numero'] = df['cedula'] + '-' + df['numero']`; when either
column is missing it logs an error and returns the frame unchanged. -/
def crear_llave_cedula_numero_r05 (df : MarcoR05) : MarcoR05 :=
  match df.cedula, df.numero with
  | some cs, some ns =>
    { df with
        cedula_numero := some (List.zipWith (fun c n => c ++ "-" ++ n) cs ns) }
  | _, _ => df

/-- C6: for every column of raw (customerId, loanNumber) cells, the key
column built by the shared constructor with its default separator equals
the key column built by the R05 pipeline (cleaning via
`convertir_tipos_r05`, then `crear_llave_cedula_numero_r05`), and both
equal the cleaned pair joined by `"-"` — the R05 separator after
transformation is `"-"` like every other source. -/
theorem consistencia_separador_llave :
    ∀ (cs ns : List ValorCrudo),
      (crear_llave_cedula_numero ⟨some cs, some ns, none⟩).cedula_numero
        = (crear_llave_cedula_numero_r05
            (convertir_tipos_r05 (some cs) (some ns))).cedula_numero ∧
      (crear_llave_cedula_numero ⟨some cs, some ns, none⟩).cedula_numero
        = some (List.zipWith
            (fun c n => limpiar_valor c ++ "-" ++ limpiar_valor n) cs ns) := by
  intro cs ns
  have h : (crear_llave_cedula_numero ⟨some cs, some ns, none⟩).cedula_numero
      = some (List.zipWith
          (fun c n => limpiar_valor c ++ "-" ++ limpiar_valor n) cs ns) := by
    simp [crear_llave_cedula_numero, List.zipWith_map]
  refine ⟨h.trans ?_, h⟩
  simp [crear_llave_cedula_numero_r05, convertir_tipos_r05, List.zipWith_map]

/-- A concrete frame whose customer-id column is absent. -/
def marcoSinCedula : MarcoLlave :=
  { cedula := none
    numero := some [ValorCrudo.numero 4 0]
    cedula_numero := none }

/-- C8 counterexample: with the customer-id column absent, the key
constructor does not fail — it returns the frame unchanged, with no
composite-key column, and the R05 variant behaves the same way.  This
refutes the claim that a missing required identifier column is a hard
failure for the source. -/
theorem llave_columna_ausente_counterexample :
    crear_llave_cedula_numero marcoSinCedula = marcoSinCedula ∧
    (crear_llave_cedula_numero marcoSinCedula).cedula_numero = none ∧
    crear_llave_cedula_numero_r05 ⟨none, some ["4"], none⟩
      = ⟨none, some ["4"], none⟩ := by
  refine ⟨rfl, rfl, rfl⟩

/-- C8 amended: when a required identifier column (customer id or loan
number) is absent, both key constructors log an error and return the
input table unchanged — in particular no composite-key column is added
and no exception is raised; the source's processing continues with the
keyless table. -/
theorem llave_columna_ausente_sin_cambio :
    (∀ (df : MarcoLlave) (sep : String),
      df.cedula = none ∨ df.numero = none →
        crear_llave_cedula_numero df sep = df) ∧
    (∀ df : MarcoR05,
      df.cedula = none ∨ df.numero = none →
        crear_llave_cedula_numero_r05 df = df) := by
  constructor
  · rintro ⟨c, n, k⟩ sep (h | h) <;> simp only at h <;> subst h
    · rfl
    · cases c <;> rfl
  · rintro ⟨c, n, k⟩ (h | h) <;> simp only at h <;> subst h
    · rfl
    · cases c <;> rfl

/-- Instantiation of `llave_columna_ausente_sin_cambio` on concrete
frames missing one identifier column each. -/
theorem llave_columna_ausente_sin_cambio_witness :
    crear_llave_cedula_numero ⟨none, some [ValorCrudo.numero 7 0], none⟩ "-"
      = ⟨none, some [ValorCrudo.numero 7 0], none⟩ ∧
    crear_llave_cedula_numero_r05 ⟨some ["9"], none, none⟩
      = ⟨some ["9"], none, none⟩ :=
  ⟨llave_columna_ausente_sin_cambio.1 _ "-" (Or.inl rfl),
   llave_columna_ausente_sin_cambio.2 _ (Or.inr rfl)⟩

/-! ## Package import wiring

`src/transformadores/__init__.py` and `src/procesadores/__init__.py`
pull a fixed list of names from their submodules; a `from X import n`
statement succeeds only when module `X` actually defines `n`.  The
top-level function definitions of the relevant submodules are transcribed
below from the sources. -/

/-- Top-level `def`s of `src/transformadores/fnz001.py`. -/
def defsFnz001 : List String :=
  ["procesar_fnz007", "dividir_y_filtrar_desembolso", "limpiar_outliers_fnz007",
   "corregir_outliers_fecha_nacimiento", "corregir_outliers_numericos",
   "corregir_outliers_gastos", "corregir_outliers_ingresos",
   "corregir_outliers_avaluo", "unificar_columnas_empleo",
   "categorizar_estado_civil", "categorizar_nivel_escolar",
   "eliminar_columnas_fnz007", "renombrar_columnas_fnz007"]

/-- Top-level `def`s of `src/transformadores/fnz007.py`. -/
def defsFnz007 : List String := ["procesar_fnz007"]

/-- Top-level `def`s of `src/transformadores/analisis_cartera.py`. -/
def defsAnalisisCartera : List String :=
  ["filtrar_finansuenos_ac", "procesar_analisis_cartera",
   "manejar_duplicados_ac", "crear_columna_mora_ac"]

/-- Top-level `def`s of `src/transformadores/edades.py`. -/
def defsEdades : List String := ["procesar_edades"]

/-- Top-level `def`s of `src/transformadores/r05.py`. -/
def defsR05 : List String :=
  ["procesar_r05", "identificar_y_renombrar_r05", "convertir_tipos_r05",
   "crear_llave_cedula_numero_r05", "filtrar_abono_positivo",
   "agrupar_duplicados_r05", "calcular_corte_fin_mes"]

/-- Top-level `def`s of `src/transformadores/recaudos.py`. -/
def defsRecaudos : List String := ["procesar_recaudos"]

/-- Top-level `def`s of `src/procesadores/procesador.py`. -/
def defsProcesador : List String := ["main"]

/-- Top-level `def`s of `src/procesadores/cosechas.py`. -/
def defsCosechas : List String :=
  ["crear_cosechas", "unir_con_ac", "unir_con_edades", "unir_con_r05",
   "unir_con_recaudos", "corregir_fechafac", "crear_fechafac_ajustada",
   "filtrar_registros_na"]

/-- Top-level `def`s of `src/procesadores/crm.py`. -/
def defsCrm : List String :=
  ["crear_crm", "unir_con_ac_primer_registro", "calcular_edad",
   "crear_todos_los_rangos", "crear_rango_ingresos", "crear_rango_avaluo",
   "crear_rango_monto", "crear_rango_gastos", "crear_rango_edad",
   "crear_rango_cuotas"]

/-- Top-level `def`s of `src/procesadores/comportamiento.py`. -/
def defsComportamiento : List String :=
  ["crear_comportamiento", "seleccionar_columnas_ac", "crear_columna_mora",
   "pivotar_comportamiento", "unir_valor_desembolsado", "unir_categorias",
   "procesar_columnas_mora", "llenar_na_iniciales",
   "reemplazar_na_con_calificacion", "convertir_puntos_a_na"]

/-- The defined names of each submodule referenced by the two package
init files. -/
def defsDeModulo : String → List String
  | "transformadores.analisis_cartera" => defsAnalisisCartera
  | "transformadores.fnz007" => defsFnz007
  | "transformadores.edades" => defsEdades
  | "transformadores.r05" => defsR05
  | "transformadores.recaudos" => defsRecaudos
  | "transformadores.fnz001" => defsFnz001
  | "procesadores.procesador" => defsProcesador
  | "procesadores.cosechas" => defsCosechas
  | "procesadores.crm" => defsCrm
  | "procesadores.comportamiento" => defsComportamiento
  | _ => []

/-- The `from .X import n` pairs executed by
`src/transformadores/__init__.py` (lines 5-16). -/
def importacionesInitTransformadores : List (String × String) :=
  [("transformadores.analisis_cartera", "filtrar_finansuenos_ac"),
   ("transformadores.analisis_cartera", "procesar_analisis_cartera"),
   ("transformadores.analisis_cartera", "manejar_duplicados_ac"),
   ("transformadores.analisis_cartera", "crear_columna_mora_ac"),
   ("transformadores.fnz007", "procesar_fnz007"),
   ("transformadores.edades", "procesar_edades"),
   ("transformadores.r05", "procesar_r05"),
   ("transformadores.recaudos", "procesar_recaudos"),
   ("transformadores.fnz001", "procesar_fnz001")]

/-- The `from .X import n` pairs executed by
`src/procesadores/__init__.py` (lines 6-9). -/
def importacionesInitProcesadores : List (String × String) :=
  [("procesadores.procesador", "unir_datasets"),
   ("procesadores.cosechas", "crear_cosechas"),
   ("procesadores.crm", "crear_crm"),
   ("procesadores.comportamiento", "crear_comportamiento")]

/-- A package init executes successfully iff every imported name is
defined in the module it is imported from. -/
def importaOk (imps : List (String × String)) : Bool :=
  imps.all (fun p => p.2 ∈ defsDeModulo p.1)

/-- `src/main.py` (lines 12-21) can run only if importing the
`src.transformadores` package succeeds. -/
def arrancaMainPy : Prop := importaOk importacionesInitTransformadores = true

/-- `src/procesadores/procesador.py` (line 10) imports from the
`src.procesadores` package, so its `main` can run only if both package
inits succeed (it also imports `src.transformadores` at lines 12-22). -/
def arrancaProcesadorMain : Prop :=
  importaOk importacionesInitProcesadores = true ∧
  importaOk importacionesInitTransformadores = true

/-- C9: the package wiring is unsatisfiable — `fnz001.py` defines
`procesar_fnz007` but not the `procesar_fnz001` that
`transformadores/__init__.py` imports, and `procesador.py` defines no
`unir_datasets` although `procesadores/__init__.py` imports it; hence
neither entry point can be invoked, as importing either package fails
before any data is processed. -/
theorem cableado_imports_insatisfacible :
    "procesar_fnz001" ∉ defsFnz001 ∧
    "procesar_fnz007" ∈ defsFnz001 ∧
    "unir_datasets" ∉ defsProcesador ∧
    ("transformadores.fnz001", "procesar_fnz001")
      ∈ importacionesInitTransformadores ∧
    ("procesadores.procesador", "unir_datasets")
      ∈ importacionesInitProcesadores ∧
    importaOk importacionesInitTransformadores = false ∧
    importaOk importacionesInitProcesadores = false ∧
    ¬ arrancaMainPy ∧
    ¬ arrancaProcesadorMain := by
  refine ⟨by decide, by decide, by decide, by decide, by decide,
    by decide, by decide, ?_, ?_⟩
  · unfold arrancaMainPy
    decide
  · unfold arrancaProcesadorMain
    rintro ⟨h, -⟩
    exact absurd h (by decide)

/-! ## Gap-fill over the pivoted delinquency columns

`procesar_columnas_mora` (comportamiento.py, lines 345-384) works on the
`Mora_*` columns of one pivoted row, sorted by their embedded ISO date.
Step 1 (`llenar_na_iniciales`) sets every cell strictly before the first
non-null one to the placeholder `"."`.  Step 2
(`reemplazar_na_con_calificacion`), executed only when the
`calificacion` column exists, converts the cells and the rating to
strings with `astype(str)` — a true NaN renders as the string `"nan"` —
and overwrites every cell whose string form is `"nan"`, `"None"` or `""`
with the row's rating string.  Step 3 (`convertir_puntos_a_na`) turns
`"."` back into NaN.  A row's bucket cells are modelled as a list in
column order; `none` is NaN. -/

/-- `llenar_na_iniciales` (comportamiento.py, lines 387-415) on one row:
every cell before the first non-null cell becomes `"."`; a row with no
non-null cell is left unchanged. -/
def llenar_na_iniciales : List (Option String) → List (Option String)
  | [] => []
  | some s :: resto => some s :: resto
  | none :: resto =>
    if resto.any (fun c => c.isSome) then
      some "." :: llenar_na_iniciales resto
    else
      none :: resto

/-- Python's `astype(str)` on one cell: NaN renders as `"nan"`. -/
def comoStr (c : Option String) : String :=
  match c with
  | none => "nan"
  | some s => s

/-- `reemplazar_na_con_calificacion` (comportamiento.py, lines 418-440)
on one row: all cells and the rating become strings; cells whose string
form is `"nan"`, `"None"` or `""` take the rating string. -/
def reemplazar_na_con_calificacion (celdas : List (Option String))
    (calificacion : Option String) : List (Option String) :=
  celdas.map (fun c =>
    if comoStr c = "nan" ∨ comoStr c = "None" ∨ comoStr c = "" then
      some (comoStr calificacion)
    else
      some (comoStr c))

/-- `convertir_puntos_a_na` (comportamiento.py, lines 443-454). -/
def convertir_puntos_a_na (celdas : List (Option String)) :
    List (Option String) :=
  celdas.map (fun c => if c = some "." then none else c)

/-- `procesar_columnas_mora` (comportamiento.py, lines 345-384) on one
row.  `calificacion = none` models a frame with no rating column (the
replacement step is skipped); `calificacion = some cal` models a present
column whose cell in this row is `cal`. -/
def procesar_columnas_mora (celdas : List (Option String))
    (calificacion : Option (Option String)) : List (Option String) :=
  let c1 := llenar_na_iniciales celdas
  let c2 := match calificacion with
    | some cal => reemplazar_na_con_calificacion c1 cal
    | none => c1
  convertir_puntos_a_na c2

/-- The behaviour the specification describes: cells before the first
observation stay null, and from the first observation on every null cell
is filled with the rating `r`. -/
def rellenoEsperado (r : String) : List (Option String) → List (Option String)
  | [] => []
  | none :: resto => none :: rellenoEsperado r resto
  | some s :: resto => some s :: resto.map (fun c => some (c.getD r))

/-- A cell that is either NaN or a genuine bucket label. -/
def celdaMora (c : Option String) : Bool :=
  c.all (fun s => decide (s ∈ morasEscala))

theorem relleno_tras_observacion (resto : List (Option String)) (r : String)
    (hr : ¬ r = ".")
    (hc : ∀ c ∈ resto, celdaMora c = true) :
    convertir_puntos_a_na (reemplazar_na_con_calificacion resto (some r))
      = resto.map (fun c => some (c.getD r)) := by
  induction resto with
  | nil => rfl
  | cons c t ih =>
    have hcr : ∀ x ∈ t, celdaMora x = true :=
      fun x hx => hc x (List.mem_cons_of_mem _ hx)
    simp only [reemplazar_na_con_calificacion, convertir_puntos_a_na,
      List.map_cons] at ih ⊢
    rw [ih hcr]
    cases c with
    | none => simp [comoStr, hr]
    | some s =>
      have hs : s ∈ morasEscala := by
        have := hc (some s) (List.mem_cons_self _ _)
        simpa [celdaMora] using this
      have hall : ∀ x ∈ morasEscala,
          x ≠ "nan" ∧ x ≠ "None" ∧ x ≠ "" ∧ x ≠ "." := by decide
      obtain ⟨hn1, hn2, hn3, hn4⟩ := hall s hs
      simp [comoStr, hn1, hn2, hn3, hn4]

theorem convertir_puntos_id (celdas : List (Option String))
    (hc : ∀ c ∈ celdas, c ≠ some ".") :
    convertir_puntos_a_na celdas = celdas := by
  induction celdas with
  | nil => rfl
  | cons c t ih =>
    have hcr : ∀ x ∈ t, x ≠ some "." :=
      fun x hx => hc x (List.mem_cons_of_mem _ hx)
    simp only [convertir_puntos_a_na, List.map_cons]
    rw [if_neg (hc c (List.mem_cons_self _ _))]
    simpa [convertir_puntos_a_na] using ih hcr

theorem procesar_mora_eq_relleno (celdas : List (Option String)) (r : String)
    (hr : ¬ r = ".")
    (hc : ∀ c ∈ celdas, celdaMora c = true)
    (hobs : celdas.any (fun c => c.isSome) = true) :
    procesar_columnas_mora celdas (some (some r)) = rellenoEsperado r celdas := by
  induction celdas with
  | nil => simp at hobs
  | cons c t ih =>
    have hcr : ∀ x ∈ t, celdaMora x = true :=
      fun x hx => hc x (List.mem_cons_of_mem _ hx)
    cases c with
    | some s =>
      have hs : s ∈ morasEscala := by
        have := hc (some s) (List.mem_cons_self _ _)
        simpa [celdaMora] using this
      have hall : ∀ x ∈ morasEscala,
          x ≠ "nan" ∧ x ≠ "None" ∧ x ≠ "" ∧ x ≠ "." := by decide
      obtain ⟨hn1, hn2, hn3, hn4⟩ := hall s hs
      show convertir_puntos_a_na
          (reemplazar_na_con_calificacion (llenar_na_iniciales (some s :: t))
            (some r))
        = rellenoEsperado r (some s :: t)
      have h1 : llenar_na_iniciales (some s :: t) = some s :: t := rfl
      have h2 : reemplazar_na_con_calificacion (some s :: t) (some r)
          = some s :: reemplazar_na_con_calificacion t (some r) := by
        simp [reemplazar_na_con_calificacion, comoStr, hn1, hn2, hn3]
      have h3 : convertir_puntos_a_na
            (some s :: reemplazar_na_con_calificacion t (some r))
          = some s :: convertir_puntos_a_na
              (reemplazar_na_con_calificacion t (some r)) := by
        simp [convertir_puntos_a_na, hn4]
      rw [h1, h2, h3, relleno_tras_observacion t r hr hcr]
      rfl
    | none =>
      cases hany : t.any (fun c => c.isSome) with
      | false =>
        exfalso
        simp only [List.any_cons, Option.isSome_none, Bool.false_or] at hobs
        rw [hobs] at hany
        cases hany
      | true =>
        show convertir_puntos_a_na
            (reemplazar_na_con_calificacion (llenar_na_iniciales (none :: t))
              (some r))
          = rellenoEsperado r (none :: t)
        have h1 : llenar_na_iniciales (none :: t)
            = some "." :: llenar_na_iniciales t := by
          simp [llenar_na_iniciales, hany]
        have h2 : reemplazar_na_con_calificacion
              (some "." :: llenar_na_iniciales t) (some r)
            = some "." :: reemplazar_na_con_calificacion
                (llenar_na_iniciales t) (some r) := by
          simp [reemplazar_na_con_calificacion, comoStr]
        have h3 : convertir_puntos_a_na
              (some "." :: reemplazar_na_con_calificacion
                (llenar_na_iniciales t) (some r))
            = none :: convertir_puntos_a_na
                (reemplazar_na_con_calificacion (llenar_na_iniciales t)
                  (some r)) := by
          simp [convertir_puntos_a_na]
        have h4 := ih hcr hany
        simp only [procesar_columnas_mora] at h4
        rw [h1, h2, h3, h4]
        rfl

/-- C7: in the gap-fill over date-sorted bucket columns, for any row with
at least one observed bucket and a present, bucket-valued reference
rating, every cell strictly before the first non-null observation ends
as true null (the `"."` placeholder never reaches the output) and every
null cell at or after the first observation is filled with the rating —
so `[null, null, "B1", null, "A2"]` with rating `"C1"` yields
`[null, null, "B1", "C1", "A2"]` (see the witness). -/
theorem rellenado_mora_ordenado (celdas : List (Option String)) (r : String)
    (hr : r ∈ morasEscala)
    (hc : ∀ c ∈ celdas, celdaMora c = true)
    (hobs : celdas.any (fun c => c.isSome) = true) :
    procesar_columnas_mora celdas (some (some r)) = rellenoEsperado r celdas :=
  procesar_mora_eq_relleno celdas r
    (by
      have hall : ∀ x ∈ morasEscala, ¬ x = "." := by decide
      exact hall r hr)
    hc hobs

/-- The spec's concrete gap-fill example, via `rellenado_mora_ordenado`:
`[null, null, "B1", null, "A2"]` with rating `"C1"` produces
`[null, null, "B1", "C1", "A2"]`. -/
theorem rellenado_mora_ordenado_witness :
    procesar_columnas_mora [none, none, some "B1", none, some "A2"]
        (some (some "C1"))
      = [none, none, some "B1", some "C1", some "A2"] :=
  (rellenado_mora_ordenado [none, none, some "B1", none, some "A2"] "C1"
      (by decide) (by decide) (by decide)).trans (by decide)

/-- C10: the rating-fill step stringifies bucket cells and the rating,
so for a row whose rating cell is null, every null bucket cell at or
after the first observation ends holding the literal string `"nan"`
(the stringified NaN rating) instead of a true null, while a row whose
frame has no rating column at all keeps true nulls in those cells. -/
theorem relleno_nan_calificacion_nula :
    (∀ celdas : List (Option String),
      (∀ c ∈ celdas, celdaMora c = true) →
      celdas.any (fun c => c.isSome) = true →
        procesar_columnas_mora celdas (some none)
          = rellenoEsperado "nan" celdas) ∧
    (∀ celdas : List (Option String),
      (∀ c ∈ celdas, celdaMora c = true) →
        procesar_columnas_mora celdas none = celdas) := by
  constructor
  · intro celdas hc hobs
    have hmismo : procesar_columnas_mora celdas (some none)
        = procesar_columnas_mora celdas (some (some "nan")) := rfl
    rw [hmismo]
    exact procesar_mora_eq_relleno celdas "nan" (by decide) hc hobs
  · intro celdas hc
    induction celdas with
    | nil => rfl
    | cons c t ih =>
      have hcr : ∀ x ∈ t, celdaMora x = true :=
        fun x hx => hc x (List.mem_cons_of_mem _ hx)
      have hnd : ∀ x ∈ t, x ≠ some "." := by
        intro x hx hcon
        have hx2 := hcr x hx
        rw [hcon] at hx2
        simp [celdaMora, morasEscala] at hx2
      cases c with
      | some s =>
        have hsd : ¬ (some s = some ".") := by
          intro hcon
          have hx2 := hc (some s) (List.mem_cons_self _ _)
          rw [hcon] at hx2
          simp [celdaMora, morasEscala] at hx2
        show convertir_puntos_a_na (llenar_na_iniciales (some s :: t))
          = some s :: t
        have h1 : llenar_na_iniciales (some s :: t) = some s :: t := rfl
        rw [h1]
        simp only [convertir_puntos_a_na, List.map_cons]
        rw [if_neg hsd]
        have h2 := convertir_puntos_id t hnd
        simp only [convertir_puntos_a_na] at h2
        rw [h2]
      | none =>
        show convertir_puntos_a_na (llenar_na_iniciales (none :: t))
          = none :: t
        cases hany : t.any (fun c => c.isSome) with
        | false =>
          have h1 : llenar_na_iniciales (none :: t) = none :: t := by
            simp [llenar_na_iniciales, hany]
          rw [h1]
          simp only [convertir_puntos_a_na, List.map_cons]
          rw [if_neg (by simp)]
          have h2 := convertir_puntos_id t hnd
          simp only [convertir_puntos_a_na] at h2
          rw [h2]
        | true =>
          have h1 : llenar_na_iniciales (none :: t)
              = some "." :: llenar_na_iniciales t := by
            simp [llenar_na_iniciales, hany]
          rw [h1]
          simp only [convertir_puntos_a_na, List.map_cons, if_true]
          have h2 := ih hcr
          show none :: List.map (fun c => if c = some "." then none else c)
              (llenar_na_iniciales t) = none :: t
          have h3 : procesar_columnas_mora t none
              = convertir_puntos_a_na (llenar_na_iniciales t) := rfl
          rw [h3] at h2
          simp only [convertir_puntos_a_na] at h2
          rw [h2]

/-- Instantiation of `relleno_nan_calificacion_nula`: with a null rating
the trailing null cell becomes the string `"nan"`; with no rating column
it stays a true null. -/
theorem relleno_nan_calificacion_nula_witness :
    procesar_columnas_mora [none, some "B1", none] (some none)
      = [none, some "B1", some "nan"] ∧
    procesar_columnas_mora [none, some "B1", none] none
      = [none, some "B1", none] :=
  ⟨(relleno_nan_calificacion_nula.1 _ (by decide) (by decide)).trans (by decide),
   relleno_nan_calificacion_nula.2 _ (by decide)⟩

/-! ## Billing-date repair in CohortBuilder

`corregir_fechafac` (cosechas.py, lines 287-325) fills a null `fechafac`
from `corte` with `(corte + relativedelta(months=2)).replace(day=1) -
Timedelta(days=1)` and leaves non-null billing dates and null-`corte`
rows alone; when no `fechafac` is null it returns early.  Dates are
modelled as calendar triples with the Gregorian month lengths;
`relativedelta` month addition clamps the day to the target month's
length. -/

/-- Gregorian leap year. -/
def bisiesto (a : ℕ) : Bool :=
  (a % 4 == 0 && a % 100 != 0) || (a % 400 == 0)

/-- Length of a month. -/
def diasEnMes (a m : ℕ) : ℕ :=
  if m = 2 then (if bisiesto a then 29 else 28)
  else if m = 4 ∨ m = 6 ∨ m = 9 ∨ m = 11 then 30
  else 31

/-- A calendar date. -/
structure Fecha where
  anio : ℕ
  mes : ℕ
  dia : ℕ
  deriving Repr, DecidableEq

/-- A well-formed date. -/
def Fecha.valida (f : Fecha) : Prop :=
  1 ≤ f.anio ∧ 1 ≤ f.mes ∧ f.mes ≤ 12 ∧ 1 ≤ f.dia ∧
    f.dia ≤ diasEnMes f.anio f.mes

instance (f : Fecha) : Decidable f.valida := by
  unfold Fecha.valida
  infer_instance

/-- `relativedelta(months=n)`: advance the month, clamping the day to
the target month's length. -/
def agregarMeses (f : Fecha) (n : ℕ) : Fecha :=
  let t := f.mes + n - 1
  let a := f.anio + t / 12
  let m := t % 12 + 1
  ⟨a, m, min f.dia (diasEnMes a m)⟩

/-- `.replace(day=1)`. -/
def primerDiaDeMes (f : Fecha) : Fecha := ⟨f.anio, f.mes, 1⟩

/-- `- Timedelta(days=1)`. -/
def diaAnterior (f : Fecha) : Fecha :=
  if 2 ≤ f.dia then ⟨f.anio, f.mes, f.dia - 1⟩
  else if 2 ≤ f.mes then ⟨f.anio, f.mes - 1, diasEnMes f.anio (f.mes - 1)⟩
  else ⟨f.anio - 1, 12, 31⟩

/-- Last calendar day of a date's month. -/
def finDeMes (f : Fecha) : Fecha := ⟨f.anio, f.mes, diasEnMes f.anio f.mes⟩

/-- The columns of a cohort row that the billing-date repair touches. -/
structure FilaCosecha where
  fechafac : Option Fecha
  corte : Option Fecha
  deriving Repr, DecidableEq

/-- The per-row fill of `corregir_fechafac`: a non-null billing date is
kept; a null one becomes `(corte + 2 months), day 1, minus one day`
when `corte` is non-null, and stays NaT otherwise. -/
def reparaFechafac (r : FilaCosecha) : Option Fecha :=
  match r.fechafac with
  | some f => some f
  | none => r.corte.map (fun c => diaAnterior (primerDiaDeMes (agregarMeses c 2)))

/-- `corregir_fechafac` (cosechas.py): early return when no billing date
is null, otherwise fill the null ones row by row. -/
def corregir_fechafac (filas : List FilaCosecha) : List FilaCosecha :=
  if filas.all (fun r => r.fechafac.isSome) then filas
  else filas.map (fun r => { r with fechafac := reparaFechafac r })

theorem reparacion_es_fin_de_mes_siguiente (c : Fecha) (hv : c.valida) :
    diaAnterior (primerDiaDeMes (agregarMeses c 2))
      = finDeMes (agregarMeses c 1) := by
  obtain ⟨ha, hm1, hm12, hd1, hd2⟩ := hv
  rcases c with ⟨a, m, d⟩
  simp only at hm1 hm12
  interval_cases m <;>
    simp [agregarMeses, primerDiaDeMes, diaAnterior, finDeMes, diasEnMes]

/-- C3: after the billing-date repair, every row with a null billing
date and a valid non-null AsOfDate carries the end of month of
`AsOfDate + 1 month` (equivalently, day one of the month two months
ahead, minus one day); rows with a non-null billing date keep it, rows
with a null AsOfDate keep a null billing date, and the AsOfDate column
is untouched. -/
theorem reparacion_fechafac_cosechas (filas : List FilaCosecha)
    (hv : ∀ r ∈ filas, ∀ c, r.corte = some c → c.valida) :
    (corregir_fechafac filas).map (fun r => r.fechafac)
      = filas.map (fun r =>
          match r.fechafac, r.corte with
          | some f, _ => some f
          | none, some c => some (finDeMes (agregarMeses c 1))
          | none, none => none) ∧
    (corregir_fechafac filas).map (fun r => r.corte)
      = filas.map (fun r => r.corte) := by
  constructor
  · by_cases hall : filas.all (fun r => r.fechafac.isSome) = true
    · rw [corregir_fechafac, if_pos hall]
      apply List.map_congr_left
      intro r hr
      have := List.all_eq_true.mp hall r hr
      rcases r with ⟨ff, co⟩
      cases ff with
      | some f => rfl
      | none => simp at this
    · rw [corregir_fechafac, if_neg hall, List.map_map]
      apply List.map_congr_left
      intro r hr
      rcases r with ⟨ff, co⟩
      cases ff with
      | some f => rfl
      | none =>
        cases co with
        | none => rfl
        | some c =>
          have hc : Fecha.valida c := hv ⟨none, some c⟩ hr c rfl
          show some (diaAnterior (primerDiaDeMes (agregarMeses c 2)))
            = some (finDeMes (agregarMeses c 1))
          exact congrArg some (reparacion_es_fin_de_mes_siguiente c hc)
  · by_cases hall : filas.all (fun r => r.fechafac.isSome) = true
    · rw [corregir_fechafac, if_pos hall]
    · rw [corregir_fechafac, if_neg hall, List.map_map]
      rfl

/-- Instantiation of `reparacion_fechafac_cosechas` on three rows: a
null billing date with AsOfDate 2024-01-31 is repaired to 2024-02-29
(leap February), a non-null billing date is kept, and a fully null row
stays null. -/
theorem reparacion_fechafac_cosechas_witness :
    (corregir_fechafac
        [⟨none, some ⟨2024, 1, 31⟩⟩,
         ⟨some ⟨2024, 3, 15⟩, some ⟨2024, 1, 31⟩⟩,
         ⟨none, none⟩]).map (fun r => r.fechafac)
      = [some ⟨2024, 2, 29⟩, some ⟨2024, 3, 15⟩, none] :=
  ((reparacion_fechafac_cosechas
      [⟨none, some ⟨2024, 1, 31⟩⟩,
       ⟨some ⟨2024, 3, 15⟩, some ⟨2024, 1, 31⟩⟩,
       ⟨none, none⟩]
      (by decide)).1).trans (by decide)

/-! ## A stable sort usable in computation

`sort_values` and `groupby`'s key ordering are modelled with a stable
insertion sort (structurally recursive, so concrete inputs evaluate by
reduction): an element is inserted in front of the first element it
compares `le` to, which keeps the original order of ties. -/

/-- Insert in front of the first element `a` compares `le` to. -/
def insertaPor {α : Type} (le : α → α → Bool) (a : α) :
    List α → List α
  | [] => [a]
  | b :: t => if le a b then a :: b :: t else b :: insertaPor le a t

/-- Stable insertion sort. -/
def ordenaPor {α : Type} (le : α → α → Bool) : List α → List α
  | [] => []
  | a :: t => insertaPor le a (ordenaPor le t)

theorem insertaPor_perm {α : Type} (le : α → α → Bool) (a : α)
    (l : List α) : (insertaPor le a l).Perm (a :: l) := by
  induction l with
  | nil => exact List.Perm.refl _
  | cons b t ih =>
    by_cases h : le a b
    · simp [insertaPor, h]
    · simp only [insertaPor, h, if_false, Bool.false_eq_true]
      exact ((ih.cons b).trans (List.Perm.swap a b t)).symm.symm

theorem ordenaPor_perm {α : Type} (le : α → α → Bool) (l : List α) :
    (ordenaPor le l).Perm l := by
  induction l with
  | nil => exact List.Perm.refl _
  | cons a t ih =>
    exact (insertaPor_perm le a (ordenaPor le t)).trans (ih.cons a)

theorem mem_ordenaPor {α : Type} (le : α → α → Bool) (l : List α)
    (x : α) : x ∈ ordenaPor le l ↔ x ∈ l :=
  (ordenaPor_perm le l).mem_iff

/-! ## Selective duplicate collapse in the portfolio source

`manejar_duplicados_ac` (analisis_cartera.py, lines 51-130) counts rows
per (cedula_numero, corte); when no group has more than one row the
frame is returned unchanged.  Otherwise the rows whose key occurs once
pass through untouched, the rows of multi-row groups are aggregated per
group (numeric columns summed with pandas' NaN-skipping `sum`,
non-numeric columns taking the first non-null occurrence), and the two
parts are concatenated (uniques first).  Rows are modelled with one
representative numeric column and one representative non-numeric
column; columns aggregate independently, so this captures every column
of each kind. -/

/-- A portfolio row as the duplicate handler sees it. -/
structure FilaAC where
  cedula_numero : String
  corte : String
  numerica : Option ℚ
  textual : Option String
  deriving Repr, DecidableEq

/-- The grouping key. -/
def claveAC (r : FilaAC) : String × String := (r.cedula_numero, r.corte)

/-- Number of rows sharing a key (`groupby(...).size()`). -/
def cuentaClave (filas : List FilaAC) (k : String × String) : ℕ :=
  filas.countP (fun r => claveAC r = k)

/-- Whether a row belongs to a multi-row group (`n > 1`). -/
def enGrupoDuplicado (filas : List FilaAC) (r : FilaAC) : Bool :=
  2 ≤ cuentaClave filas (claveAC r)

/-- The rows the indicator join marks `left_only`. -/
def filasUnicas (filas : List FilaAC) : List FilaAC :=
  filas.filter (fun r => ! enGrupoDuplicado filas r)

/-- The rows the indicator join marks `both`. -/
def filasDuplicadas (filas : List FilaAC) : List FilaAC :=
  filas.filter (enGrupoDuplicado filas)

/-- Lexicographic order on grouping keys (`groupby` sorts its keys). -/
def claveLe (k1 k2 : String × String) : Bool :=
  match compare k1.1 k2.1 with
  | .lt => true
  | .gt => false
  | .eq => !(compare k1.2 k2.2 == .gt)

/-- The distinct keys of the duplicated rows, in `groupby` order. -/
def clavesDuplicadas (filas : List FilaAC) : List (String × String) :=
  ordenaPor claveLe ((filasDuplicadas filas).map claveAC).dedup

/-- One multi-row group. -/
def grupoDe (filas : List FilaAC) (k : String × String) : List FilaAC :=
  (filasDuplicadas filas).filter (fun r => claveAC r = k)

/-- The aggregated row of one group: numeric column summed over the
non-null cells, non-numeric column taking the first non-null cell. -/
def agregaGrupo (filas : List FilaAC) (k : String × String) : FilaAC :=
  { cedula_numero := k.1
    corte := k.2
    numerica := some (((grupoDe filas k).filterMap (fun r => r.numerica)).sum)
    textual := ((grupoDe filas k).filterMap (fun r => r.textual)).head? }

/-- `manejar_duplicados_ac`: unchanged when there is no multi-row group,
otherwise unique rows followed by the per-group aggregates. -/
def manejar_duplicados_ac (filas : List FilaAC) : List FilaAC :=
  if (clavesDuplicadas filas).isEmpty then filas
  else filasUnicas filas ++ (clavesDuplicadas filas).map (agregaGrupo filas)

/-- NaN-skipping column total, as pandas' `sum` computes it. -/
def sumaColumna (filas : List FilaAC) : ℚ :=
  (filas.filterMap (fun r => r.numerica)).sum

theorem suma_particion (p : FilaAC → Bool) (filas : List FilaAC) :
    sumaColumna (filas.filter p)
      + sumaColumna (filas.filter (fun r => ! p r))
      = sumaColumna filas := by
  induction filas with
  | nil => simp [sumaColumna]
  | cons r t ih =>
    cases hp : p r <;>
      cases hn : r.numerica <;>
        simp [sumaColumna, List.filter_cons, List.filterMap_cons, hp, hn] at ih ⊢ <;>
          linarith

theorem suma_grupos (ks : List (String × String)) (filas : List FilaAC)
    (hnd : ks.Nodup) (hcov : ∀ r ∈ filas, claveAC r ∈ ks) :
    (ks.map (fun k =>
      sumaColumna (filas.filter (fun r => claveAC r = k)))).sum
      = sumaColumna filas := by
  induction ks generalizing filas with
  | nil =>
    cases filas with
    | nil => simp [sumaColumna]
    | cons r t => exact absurd (hcov r (List.mem_cons_self _ _)) (by simp)
  | cons k ks ih =>
    have hk : k ∉ ks := (List.nodup_cons.mp hnd).1
    have hnd2 : ks.Nodup := (List.nodup_cons.mp hnd).2
    have hcov2 : ∀ r ∈ filas.filter (fun r => !(claveAC r = k)),
        claveAC r ∈ ks := by
      intro r hr
      obtain ⟨hrm, hrp⟩ := List.mem_filter.mp hr
      have := hcov r hrm
      simp only [List.mem_cons] at this
      rcases this with h | h
      · exfalso
        simp [h] at hrp
      · exact h
    have hmismo : ∀ k2 ∈ ks,
        sumaColumna (filas.filter (fun r => claveAC r = k2))
          = sumaColumna ((filas.filter (fun r => !(claveAC r = k))).filter
              (fun r => claveAC r = k2)) := by
      intro k2 hk2
      have hne : k2 ≠ k := fun h => hk (h ▸ hk2)
      rw [List.filter_filter]
      congr 1
      apply List.filter_congr
      intro r hr
      by_cases hc : claveAC r = k2
      · simp [hc, hne]
      · simp [hc]
    calc (( k :: ks).map (fun k2 =>
          sumaColumna (filas.filter (fun r => claveAC r = k2)))).sum
        = sumaColumna (filas.filter (fun r => claveAC r = k))
          + (ks.map (fun k2 =>
              sumaColumna (filas.filter (fun r => claveAC r = k2)))).sum := by
          simp
      _ = sumaColumna (filas.filter (fun r => claveAC r = k))
          + (ks.map (fun k2 =>
              sumaColumna ((filas.filter (fun r => !(claveAC r = k))).filter
                (fun r => claveAC r = k2)))).sum := by
          rw [List.map_congr_left hmismo]
      _ = sumaColumna (filas.filter (fun r => claveAC r = k))
          + sumaColumna (filas.filter (fun r => !(claveAC r = k))) := by
          rw [ih (filas.filter (fun r => !(claveAC r = k))) hnd2 hcov2]
      _ = sumaColumna filas := suma_particion (fun r => claveAC r = k) filas

/-- C5: the duplicate collapse conserves every summed numeric column —
the column total over the output (untouched unique rows plus aggregated
duplicate groups) equals the total over the input — and rows that belong
to no duplicate group pass through unchanged, in order, into the
output. -/
theorem conservacion_suma_duplicados :
    (∀ filas : List FilaAC,
      sumaColumna (manejar_duplicados_ac filas) = sumaColumna filas) ∧
    (∀ filas : List FilaAC,
      (filasUnicas filas).Sublist (manejar_duplicados_ac filas)) ∧
    (∀ filas : List FilaAC, ∀ r ∈ filas,
      enGrupoDuplicado filas r = false → r ∈ manejar_duplicados_ac filas) := by
  have happ : ∀ a b : List FilaAC,
      sumaColumna (a ++ b) = sumaColumna a + sumaColumna b := by
    intro a b
    simp [sumaColumna]
  refine ⟨?_, ?_, ?_⟩
  · intro filas
    by_cases hvac : (clavesDuplicadas filas).isEmpty
    · rw [manejar_duplicados_ac, if_pos hvac]
    · rw [manejar_duplicados_ac, if_neg hvac]
      have hnd : (clavesDuplicadas filas).Nodup :=
        (ordenaPor_perm claveLe _).nodup_iff.mpr (List.nodup_dedup _)
      have hcov : ∀ r ∈ filasDuplicadas filas,
          claveAC r ∈ clavesDuplicadas filas := by
        intro r hr
        exact (mem_ordenaPor claveLe _ _).mpr
          (List.mem_dedup.mpr (List.mem_map_of_mem claveAC hr))
      have hagg : sumaColumna
            ((clavesDuplicadas filas).map (agregaGrupo filas))
          = ((clavesDuplicadas filas).map (fun k =>
              sumaColumna (grupoDe filas k))).sum := by
        generalize clavesDuplicadas filas = ks
        induction ks with
        | nil => rfl
        | cons k t ih =>
          simp only [List.map_cons, List.sum_cons, ← ih]
          simp [sumaColumna, agregaGrupo, List.filterMap_cons]
      rw [happ, hagg]
      have hgr : ((clavesDuplicadas filas).map (fun k =>
            sumaColumna (grupoDe filas k))).sum
          = sumaColumna (filasDuplicadas filas) :=
        suma_grupos (clavesDuplicadas filas) (filasDuplicadas filas) hnd hcov
      rw [hgr]
      rw [add_comm]
      exact suma_particion (enGrupoDuplicado filas) filas
  · intro filas
    by_cases hvac : (clavesDuplicadas filas).isEmpty
    · rw [manejar_duplicados_ac, if_pos hvac]
      exact List.filter_sublist filas
    · rw [manejar_duplicados_ac, if_neg hvac]
      exact List.sublist_append_left _ _
  · intro filas r hr hng
    by_cases hvac : (clavesDuplicadas filas).isEmpty
    · rw [manejar_duplicados_ac, if_pos hvac]
      exact hr
    · rw [manejar_duplicados_ac, if_neg hvac]
      refine List.mem_append_left _ ?_
      exact List.mem_filter.mpr ⟨hr, by simp [hng]⟩

/-- Instantiation of `conservacion_suma_duplicados` on a concrete frame
with one duplicated key: the numeric total 10 + 5 + 2 is conserved and
the unique row passes through. -/
theorem conservacion_suma_duplicados_witness :
    sumaColumna (manejar_duplicados_ac
        [⟨"1", "a", some 10, some "x"⟩,
         ⟨"1", "a", some 5, none⟩,
         ⟨"2", "a", some 2, some "y"⟩])
      = sumaColumna
        [⟨"1", "a", some 10, some "x"⟩,
         ⟨"1", "a", some 5, none⟩,
         ⟨"2", "a", some 2, some "y"⟩] ∧
    (⟨"2", "a", some 2, some "y"⟩ : FilaAC) ∈ manejar_duplicados_ac
        [⟨"1", "a", some 10, some "x"⟩,
         ⟨"1", "a", some 5, none⟩,
         ⟨"2", "a", some 2, some "y"⟩] :=
  ⟨conservacion_suma_duplicados.1 _,
   conservacion_suma_duplicados.2.2 _ _ (by decide) (by decide)⟩

/-! ## Generic left merge

`DataFrame.merge(..., how='left')` keeps every left row; a left row with
matches is repeated once per matching right row, and an unmatched left
row gets nulls for the right side's columns. -/

/-- Left merge of two row lists on a key. -/
def mergeIzquierda {α β K : Type} [DecidableEq K] (izq : List α)
    (der : List β) (kIzq : α → K) (kDer : β → K) : List (α × Option β) :=
  izq.flatMap (fun l =>
    match der.filter (fun r => kDer r = kIzq l) with
    | [] => [(l, none)]
    | coincidencias => coincidencias.map (fun m => (l, some m)))

theorem filter_eq_find_de_nodup {β K : Type} [DecidableEq K]
    (der : List β) (kDer : β → K) (x : K) (h : (der.map kDer).Nodup) :
    der.filter (fun r => kDer r = x)
      = (der.find? (fun r => kDer r = x)).toList := by
  induction der with
  | nil => rfl
  | cons d t ih =>
    have hnd : (t.map kDer).Nodup := (List.nodup_cons.mp h).2
    have hni : kDer d ∉ t.map kDer := (List.nodup_cons.mp h).1
    by_cases hd : kDer d = x
    · have hvacio : t.filter (fun r => kDer r = x) = [] := by
        rw [List.filter_eq_nil_iff]
        intro a ha
        simp only [decide_eq_true_eq]
        intro hax
        exact hni (hd ▸ hax ▸ List.mem_map_of_mem kDer ha)
      rw [List.filter_cons, List.find?_cons_of_pos _ (by simpa using hd),
        if_pos (by simpa using hd), hvacio]
      rfl
    · rw [List.filter_cons, List.find?_cons_of_neg _ (by simpa using hd),
        if_neg (by simpa using hd)]
      exact ih hnd

theorem mergeIzquierda_de_nodup {α β K : Type} [DecidableEq K]
    (izq : List α) (der : List β) (kIzq : α → K) (kDer : β → K)
    (h : (der.map kDer).Nodup) :
    mergeIzquierda izq der kIzq kDer
      = izq.map (fun l => (l, der.find? (fun r => kDer r = kIzq l))) := by
  induction izq with
  | nil => rfl
  | cons l t ih =>
    have hcabeza : (match der.filter (fun r => kDer r = kIzq l) with
        | [] => ([(l, none)] : List (α × Option β))
        | coincidencias => coincidencias.map (fun m => (l, some m)))
        = [(l, der.find? (fun r => kDer r = kIzq l))] := by
      rw [filter_eq_find_de_nodup der kDer (kIzq l) h]
      cases der.find? (fun r => kDer r = kIzq l) <;> rfl
    simp only [mergeIzquierda, List.flatMap_cons] at ih ⊢
    rw [hcabeza, List.map_cons, ← ih]
    rfl

theorem mergeIzquierda_conserva_izquierda {α β K : Type} [DecidableEq K]
    (izq : List α) (der : List β) (kIzq : α → K) (kDer : β → K)
    (h : (der.map kDer).Nodup) :
    (mergeIzquierda izq der kIzq kDer).map Prod.fst = izq := by
  rw [mergeIzquierda_de_nodup izq der kIzq kDer h, List.map_map]
  exact List.map_id izq

theorem find_en_mapa_de_llaves {K γ : Type} [DecidableEq K]
    (kl : List K) (f : K → γ) (x : K) :
    (kl.map (fun k => (k, f k))).find? (fun p => p.1 = x)
      = if x ∈ kl then some (x, f x) else none := by
  induction kl with
  | nil => rfl
  | cons k t ih =>
    simp only [List.map_cons]
    by_cases hk : k = x
    · subst hk
      rw [List.find?_cons_of_pos _ (by simp)]
      simp
    · have hk2 : x ≠ k := fun h2 => hk h2.symm
      rw [List.find?_cons_of_neg _ (by simpa using hk), ih]
      by_cases hx : x ∈ t
      · rw [if_pos hx, if_pos (List.mem_cons_of_mem _ hx)]
      · rw [if_neg hx, if_neg (by simp [List.mem_cons, hk2, hx])]

/-! ## Earliest-record join in SegmentBuilder

`unir_con_ac_primer_registro` (crm.py, lines 95-151) selects the key,
`corte` and seven attribute columns of the portfolio table, sorts by
`corte` ascending (nulls last), groups by `cedula_numero` and takes
`.first()` — which in pandas is the first **non-null** value of each
column within the group, not the first record — drops `corte`, and
left-joins the result onto the CRM base on `cedula_numero`.  `corte` and
`fechapag` are dates, modelled as ordinals. -/

/-- A portfolio row restricted to the columns the CRM join selects. -/
structure FilaACPrimer where
  cedula_numero : String
  corte : Option ℤ
  fechapag : Option ℤ
  valatras : Option ℚ
  saldofac : Option ℚ
  cuotaatras : Option ℚ
  valorcuota : Option ℚ
  totcuotas : Option ℚ
  cuotaspag : Option ℚ
  deriving Repr, DecidableEq

/-- `sort_values('corte')`: ascending with NaT placed last. -/
def corteLe (r1 r2 : FilaACPrimer) : Bool :=
  match r1.corte, r2.corte with
  | some x, some y => x ≤ y
  | some _, none => true
  | none, some _ => false
  | none, none => true

/-- The portfolio table sorted by `corte`. -/
def ordenadoPorCorte (filas : List FilaACPrimer) : List FilaACPrimer :=
  ordenaPor corteLe filas

/-- First non-null cell of a column, as `groupby(...).first()` takes
it. -/
def primerNoNulo {α : Type} (l : List (Option α)) : Option α :=
  (l.filterMap id).head?

/-- The attribute columns that survive after `corte` is dropped. -/
structure AtributosAC where
  fechapag : Option ℤ
  valatras : Option ℚ
  saldofac : Option ℚ
  cuotaatras : Option ℚ
  valorcuota : Option ℚ
  totcuotas : Option ℚ
  cuotaspag : Option ℚ
  deriving Repr, DecidableEq

/-- The rows of one `groupby` group, in post-sort order. -/
def grupoLlave (filas : List FilaACPrimer) (k : String) : List FilaACPrimer :=
  (ordenadoPorCorte filas).filter (fun r => r.cedula_numero = k)

/-- The `.first()` aggregate of one group: the first non-null value of
every column. -/
def primerRegistroGrupo (filas : List FilaACPrimer) (k : String) :
    AtributosAC :=
  { fechapag := primerNoNulo ((grupoLlave filas k).map (fun r => r.fechapag))
    valatras := primerNoNulo ((grupoLlave filas k).map (fun r => r.valatras))
    saldofac := primerNoNulo ((grupoLlave filas k).map (fun r => r.saldofac))
    cuotaatras :=
      primerNoNulo ((grupoLlave filas k).map (fun r => r.cuotaatras))
    valorcuota :=
      primerNoNulo ((grupoLlave filas k).map (fun r => r.valorcuota))
    totcuotas := primerNoNulo ((grupoLlave filas k).map (fun r => r.totcuotas))
    cuotaspag :=
      primerNoNulo ((grupoLlave filas k).map (fun r => r.cuotaspag)) }

/-- The distinct group keys, in `groupby`'s sorted order. -/
def llavesAC (filas : List FilaACPrimer) : List String :=
  ordenaPor (fun a b => !(compare a b == Ordering.gt))
    ((filas.map (fun r => r.cedula_numero)).dedup)

/-- `df_ac_primer`: one aggregated record per key. -/
def df_ac_primer (filas : List FilaACPrimer) : List (String × AtributosAC) :=
  (llavesAC filas).map (fun k => (k, primerRegistroGrupo filas k))

/-- A CRM base row; only its key takes part in the join. -/
structure FilaCRM where
  cedula_numero : String
  deriving Repr, DecidableEq

/-- A CRM row after the join: the seven portfolio attributes, null when
the key has no portfolio record. -/
structure FilaCRMJoined where
  cedula_numero : String
  fechapag : Option ℤ
  valatras : Option ℚ
  saldofac : Option ℚ
  cuotaatras : Option ℚ
  valorcuota : Option ℚ
  totcuotas : Option ℚ
  cuotaspag : Option ℚ
  deriving Repr, DecidableEq

/-- `unir_con_ac_primer_registro` (crm.py): sort, group, take the
per-column first non-null values, drop `corte`, left-join on the key. -/
def unir_con_ac_primer_registro (crm : List FilaCRM)
    (df_ac : List FilaACPrimer) : List FilaCRMJoined :=
  (mergeIzquierda crm (df_ac_primer df_ac)
      (fun c => c.cedula_numero) Prod.fst).map
    (fun par =>
      { cedula_numero := par.1.cedula_numero
        fechapag := par.2.bind (fun q => q.2.fechapag)
        valatras := par.2.bind (fun q => q.2.valatras)
        saldofac := par.2.bind (fun q => q.2.saldofac)
        cuotaatras := par.2.bind (fun q => q.2.cuotaatras)
        valorcuota := par.2.bind (fun q => q.2.valorcuota)
        totcuotas := par.2.bind (fun q => q.2.totcuotas)
        cuotaspag := par.2.bind (fun q => q.2.cuotaspag) })

/-- The portfolio table of the counterexample: one key, two snapshots;
the earlier snapshot (corte 1) has a null `fechapag`, the later one
(corte 2) carries `fechapag = 7`. -/
def acEjemplo : List FilaACPrimer :=
  [⟨"k", some 1, none, some 5, none, none, none, none, none⟩,
   ⟨"k", some 2, some 7, some 9, none, none, none, none, none⟩]

/-- C2 counterexample: every corte-minimal record of `acEjemplo` has a
null `fechapag`, yet the joined segment row carries `fechapag = 7` and
`valatras = 5` — values from two different records — so the join does
not use only the single earliest-AsOfDate record per key. -/
theorem primer_registro_counterexample :
    ((unir_con_ac_primer_registro [⟨"k"⟩] acEjemplo).map
        (fun r => (r.fechapag, r.valatras))) = [(some 7, some 5)] ∧
    (∀ r ∈ acEjemplo, (∀ s ∈ acEjemplo, corteLe r s = true) →
      r.fechapag = none ∧ r.valatras = some 5) := by
  constructor
  · rfl
  · decide

/-- C2 amended: for every CompositeKey, each portfolio attribute joined
onto the segment row is the first **non-null** value of that column over
the key's records ordered by ascending AsOfDate (pandas
`groupby(...).first()` skips nulls per column); only when the
earliest-AsOfDate record is non-null in a column does that value come
from the earliest record.  Keys with no portfolio record get nulls. -/
theorem primer_registro_por_columna (crm : List FilaCRM)
    (df_ac : List FilaACPrimer) :
    unir_con_ac_primer_registro crm df_ac
      = crm.map (fun c =>
          { cedula_numero := c.cedula_numero
            fechapag := primerNoNulo ((grupoLlave df_ac c.cedula_numero).map
              (fun r => r.fechapag))
            valatras := primerNoNulo ((grupoLlave df_ac c.cedula_numero).map
              (fun r => r.valatras))
            saldofac := primerNoNulo ((grupoLlave df_ac c.cedula_numero).map
              (fun r => r.saldofac))
            cuotaatras := primerNoNulo ((grupoLlave df_ac c.cedula_numero).map
              (fun r => r.cuotaatras))
            valorcuota := primerNoNulo ((grupoLlave df_ac c.cedula_numero).map
              (fun r => r.valorcuota))
            totcuotas := primerNoNulo ((grupoLlave df_ac c.cedula_numero).map
              (fun r => r.totcuotas))
            cuotaspag := primerNoNulo ((grupoLlave df_ac c.cedula_numero).map
              (fun r => r.cuotaspag)) }) := by
  have hfst : (df_ac_primer df_ac).map Prod.fst = llavesAC df_ac := by
    rw [df_ac_primer, List.map_map]
    exact List.map_id _
  have hnodup : ((df_ac_primer df_ac).map Prod.fst).Nodup := by
    rw [hfst]
    exact (ordenaPor_perm _ _).nodup_iff.mpr (List.nodup_dedup _)
  rw [unir_con_ac_primer_registro,
    mergeIzquierda_de_nodup _ _ _ _ hnodup, List.map_map]
  apply List.map_congr_left
  intro c hc
  simp only [Function.comp]
  rw [df_ac_primer, find_en_mapa_de_llaves]
  by_cases hmem : c.cedula_numero ∈ llavesAC df_ac
  · rw [if_pos hmem]
    rfl
  · rw [if_neg hmem]
    have hvacia : grupoLlave df_ac c.cedula_numero = [] := by
      rw [grupoLlave, List.filter_eq_nil_iff]
      intro r hrmem
      simp only [decide_eq_true_eq]
      intro hrk
      apply hmem
      refine (mem_ordenaPor _ _ _).mpr (List.mem_dedup.mpr ?_)
      exact hrk ▸ List.mem_map_of_mem (fun r => r.cedula_numero)
        ((mem_ordenaPor corteLe df_ac r).mp hrmem)
    rw [hvacia]
    rfl

/-- Instantiation of `primer_registro_por_columna` on `acEjemplo`: the
joined row mixes `fechapag` from the later snapshot with `valatras`
from the earlier one. -/
theorem primer_registro_por_columna_witness :
    unir_con_ac_primer_registro [⟨"k"⟩] acEjemplo
      = [⟨"k", some 7, some 5, none, none, none, none, none⟩] :=
  (primer_registro_por_columna [⟨"k"⟩] acEjemplo).trans (by rfl)

/-! ## The dataset union (JoinEngine)

`unir_datasets` is imported by `src/procesadores/__init__.py` and called
by `src/procesadores/procesador.py` (lines 217-225), but no module of
the repository defines it (see `cableado_imports_insatisfacible`).  The
definitions of this section are therefore modelled from the
specification's JoinEngine contract (§4.3): (1) left-join loan-master to
the secondary registry on loan number, the registry pre-deduplicated by
loan number keeping the first record, backfilling customer id and
as-of-date; (2) build the CompositeKey from the normalized customer id
and loan number; (3) left-join portfolio on (key, AsOfDate); (4)
left-join age-of-debt on the key alone; (5) left-join payment-plan on
(key, AsOfDate); (6) left-join collections on (key, AsOfDate); (7) drop
every row whose key appears in the excluded-accounts list (anti-join).
Identifier cells are taken as already normalized strings (the
normalizer itself is `limpiar_valor` above); each right-hand table
carries one representative payload column. -/

/-- `drop_duplicates(keep='first')` on a key: keep a row iff its key was
not seen earlier. -/
def dedupPorPrimera {β K : Type} [DecidableEq K] (key : β → K)
    (vistos : List K) : List β → List β
  | [] => []
  | r :: t =>
    if key r ∈ vistos then dedupPorPrimera key vistos t
    else r :: dedupPorPrimera key (key r :: vistos) t

theorem dedupPorPrimera_claves {β K : Type} [DecidableEq K] (key : β → K) :
    ∀ (t : List β) (vistos : List K),
      ((dedupPorPrimera key vistos t).map key).Nodup ∧
      ∀ r ∈ dedupPorPrimera key vistos t, key r ∉ vistos := by
  intro t
  induction t with
  | nil => intro vistos; exact ⟨List.nodup_nil, by simp [dedupPorPrimera]⟩
  | cons r t ih =>
    intro vistos
    by_cases hv : key r ∈ vistos
    · rw [dedupPorPrimera, if_pos hv]
      exact ih vistos
    · rw [dedupPorPrimera, if_neg hv]
      obtain ⟨hnd, hout⟩ := ih (key r :: vistos)
      refine ⟨?_, ?_⟩
      · rw [List.map_cons, List.nodup_cons]
        refine ⟨?_, hnd⟩
        intro hmem
        obtain ⟨x, hx, hkx⟩ := List.mem_map.mp hmem
        exact hout x hx (hkx ▸ List.mem_cons_self _ _)
      · intro x hx
        rcases List.mem_cons.mp hx with h | h
        · exact h ▸ hv
        · exact fun hc => hout x h (List.mem_cons_of_mem _ hc)

/-- A transformed loan-master row: normalized loan number, possibly
missing normalized customer id and as-of-date, and the loan value. -/
structure FilaPrestamo where
  numero : String
  cedula : Option String
  corte : Option ℤ
  valor : ℚ
  deriving Repr, DecidableEq

/-- A transformed secondary-registry row keyed by loan number, able to
backfill customer id and as-of-date. -/
structure FilaRegistro where
  numero : String
  cedula : Option String
  corte : Option ℤ
  deriving Repr, DecidableEq

/-- A transformed portfolio row for the union, keyed by
(CompositeKey, AsOfDate). -/
structure FilaCarteraU where
  cedula_numero : String
  corte : Option ℤ
  datos : ℚ
  deriving Repr, DecidableEq

/-- A transformed age-of-debt row, keyed by CompositeKey alone. -/
structure FilaEdadesU where
  cedula_numero : String
  datos : ℚ
  deriving Repr, DecidableEq

/-- A transformed payment-plan row, keyed by (CompositeKey, AsOfDate). -/
structure FilaPlanU where
  cedula_numero : String
  corte : Option ℤ
  datos : ℚ
  deriving Repr, DecidableEq

/-- A transformed collections row, keyed by (CompositeKey, AsOfDate). -/
structure FilaRecaudosU where
  cedula_numero : String
  corte : Option ℤ
  capitalrec : ℚ
  deriving Repr, DecidableEq

/-- Modelled from the spec: step 1 of `unir_datasets` — left-join
loan-master to the secondary registry on loan number (the registry
deduplicated by loan number, keep-first) and backfill the missing
customer id and as-of-date cells from the matched registry row. -/
def unirPaso1 (prestamos : List FilaPrestamo) (registro : List FilaRegistro) :
    List FilaPrestamo :=
  (mergeIzquierda prestamos
      (dedupPorPrimera (fun r => r.numero) [] registro)
      (fun l => l.numero) (fun r => r.numero)).map
    (fun par =>
      { par.1 with
          cedula := match par.1.cedula with
            | some c => some c
            | none => par.2.bind (fun r => r.cedula)
          corte := match par.1.corte with
            | some c => some c
            | none => par.2.bind (fun r => r.corte) })

/-- A unified base row after key construction. -/
structure FilaBaseU where
  cedula_numero : String
  corte : Option ℤ
  valor : ℚ
  deriving Repr, DecidableEq

/-- Modelled from the spec: step 2 — build the CompositeKey from the
normalized customer id (empty when missing, per the KeyNormalizer
contract) and the loan number, joined by `"-"`. -/
def unirPaso2 (prestamos : List FilaPrestamo) : List FilaBaseU :=
  prestamos.map (fun r =>
    { cedula_numero := (r.cedula.getD "") ++ "-" ++ r.numero
      corte := r.corte
      valor := r.valor })

/-- Modelled from the spec: step 3 — left-join portfolio on
(CompositeKey, AsOfDate). -/
def unirPaso3 (base : List FilaBaseU) (cartera : List FilaCarteraU) :
    List (FilaBaseU × Option FilaCarteraU) :=
  mergeIzquierda base cartera
    (fun b => (b.cedula_numero, b.corte))
    (fun a => (a.cedula_numero, a.corte))

/-- Modelled from the spec: step 4 — left-join age-of-debt on the
CompositeKey alone. -/
def unirPaso4 (base : List (FilaBaseU × Option FilaCarteraU))
    (edades : List FilaEdadesU) :
    List ((FilaBaseU × Option FilaCarteraU) × Option FilaEdadesU) :=
  mergeIzquierda base edades
    (fun p => p.1.cedula_numero)
    (fun e => e.cedula_numero)

/-- Modelled from the spec: step 5 — left-join payment-plan on
(CompositeKey, AsOfDate). -/
def unirPaso5
    (base : List ((FilaBaseU × Option FilaCarteraU) × Option FilaEdadesU))
    (plan : List FilaPlanU) :
    List (((FilaBaseU × Option FilaCarteraU) × Option FilaEdadesU)
      × Option FilaPlanU) :=
  mergeIzquierda base plan
    (fun p => (p.1.1.cedula_numero, p.1.1.corte))
    (fun q => (q.cedula_numero, q.corte))

/-- Modelled from the spec: step 6 — left-join collections on
(CompositeKey, AsOfDate). -/
def unirPaso6
    (base : List (((FilaBaseU × Option FilaCarteraU) × Option FilaEdadesU)
      × Option FilaPlanU))
    (recaudos : List FilaRecaudosU) :
    List ((((FilaBaseU × Option FilaCarteraU) × Option FilaEdadesU)
      × Option FilaPlanU) × Option FilaRecaudosU) :=
  mergeIzquierda base recaudos
    (fun p => (p.1.1.1.cedula_numero, p.1.1.1.corte))
    (fun q => (q.cedula_numero, q.corte))

/-- A fully joined unified-base row. -/
abbrev FilaUnida :=
  (((FilaBaseU × Option FilaCarteraU) × Option FilaEdadesU)
    × Option FilaPlanU) × Option FilaRecaudosU

/-- The (CompositeKey, AsOfDate) pair of a unified row. -/
def claveUnida (p : FilaUnida) : String × Option ℤ :=
  (p.1.1.1.1.cedula_numero, p.1.1.1.1.corte)

/-- Modelled from the spec: step 7 — anti-join against the excluded
accounts: keep exactly the rows whose CompositeKey is not listed. -/
def unirPaso7 (base : List FilaUnida) (excluidas : List String) :
    List FilaUnida :=
  base.filter (fun p => p.1.1.1.1.cedula_numero ∉ excluidas)

/-- Modelled from the spec: `unir_datasets` (JoinEngine `unify`) — the
ordered composition of the seven steps. -/
def unir_datasets (prestamos : List FilaPrestamo)
    (registro : List FilaRegistro) (cartera : List FilaCarteraU)
    (edades : List FilaEdadesU) (plan : List FilaPlanU)
    (recaudos : List FilaRecaudosU) (excluidas : List String) :
    List FilaUnida :=
  unirPaso7
    (unirPaso6
      (unirPaso5
        (unirPaso4
          (unirPaso3 (unirPaso2 (unirPaso1 prestamos registro)) cartera)
          edades)
        plan)
      recaudos)
    excluidas

theorem mergeIzquierda_clave_preservada {α β K J : Type} [DecidableEq K]
    (izq : List α) (der : List β) (kIzq : α → K) (kDer : β → K)
    (f : α → J) (h : (der.map kDer).Nodup) :
    (mergeIzquierda izq der kIzq kDer).map (fun p => f p.1) = izq.map f := by
  rw [mergeIzquierda_de_nodup izq der kIzq kDer h, List.map_map]
  rfl

/-- C1 (modelled from the spec, the code's `unir_datasets` being
undefined in the repository): the union is the ordered composition of
the seven steps — registry backfill join, key construction, the four
left joins, then the anti-join — and when the right-hand tables are
deduplicated on their join keys (as §4.2 produces them) and the keyed
base is one-row-per-(CompositeKey, AsOfDate), the result has pairwise
distinct (CompositeKey, AsOfDate) pairs drawn from the base, with every
excluded CompositeKey removed. -/
theorem union_datasets_ordenada (prestamos : List FilaPrestamo)
    (registro : List FilaRegistro) (cartera : List FilaCarteraU)
    (edades : List FilaEdadesU) (plan : List FilaPlanU)
    (recaudos : List FilaRecaudosU) (excluidas : List String)
    (hca : (cartera.map (fun a => (a.cedula_numero, a.corte))).Nodup)
    (hed : (edades.map (fun e => e.cedula_numero)).Nodup)
    (hpl : (plan.map (fun q => (q.cedula_numero, q.corte))).Nodup)
    (hre : (recaudos.map (fun q => (q.cedula_numero, q.corte))).Nodup)
    (hbase : ((unirPaso2 (unirPaso1 prestamos registro)).map
        (fun b => (b.cedula_numero, b.corte))).Nodup) :
    unir_datasets prestamos registro cartera edades plan recaudos excluidas
      = unirPaso7
          (unirPaso6
            (unirPaso5
              (unirPaso4
                (unirPaso3 (unirPaso2 (unirPaso1 prestamos registro))
                  cartera)
                edades)
              plan)
            recaudos)
          excluidas ∧
    ((unir_datasets prestamos registro cartera edades plan recaudos
        excluidas).map claveUnida).Sublist
      ((unirPaso2 (unirPaso1 prestamos registro)).map
        (fun b => (b.cedula_numero, b.corte))) ∧
    ((unir_datasets prestamos registro cartera edades plan recaudos
        excluidas).map claveUnida).Nodup ∧
    (∀ p ∈ unir_datasets prestamos registro cartera edades plan recaudos
        excluidas, p.1.1.1.1.cedula_numero ∉ excluidas) := by
  have h3 : (unirPaso3 (unirPaso2 (unirPaso1 prestamos registro))
        cartera).map (fun p => (p.1.cedula_numero, p.1.corte))
      = (unirPaso2 (unirPaso1 prestamos registro)).map
          (fun b => (b.cedula_numero, b.corte)) := by
    unfold unirPaso3
    exact mergeIzquierda_clave_preservada _ _ _ _
      (fun b : FilaBaseU => (b.cedula_numero, b.corte)) hca
  have h4 : (unirPaso4
        (unirPaso3 (unirPaso2 (unirPaso1 prestamos registro)) cartera)
        edades).map (fun p => (p.1.1.cedula_numero, p.1.1.corte))
      = (unirPaso3 (unirPaso2 (unirPaso1 prestamos registro))
          cartera).map (fun p => (p.1.cedula_numero, p.1.corte)) := by
    unfold unirPaso4
    exact mergeIzquierda_clave_preservada _ _ _ _
      (fun p : FilaBaseU × Option FilaCarteraU =>
        (p.1.cedula_numero, p.1.corte)) hed
  have h5 : (unirPaso5
        (unirPaso4
          (unirPaso3 (unirPaso2 (unirPaso1 prestamos registro)) cartera)
          edades)
        plan).map (fun p => (p.1.1.1.cedula_numero, p.1.1.1.corte))
      = (unirPaso4
          (unirPaso3 (unirPaso2 (unirPaso1 prestamos registro)) cartera)
          edades).map (fun p => (p.1.1.cedula_numero, p.1.1.corte)) := by
    unfold unirPaso5
    exact mergeIzquierda_clave_preservada _ _ _ _
      (fun p : (FilaBaseU × Option FilaCarteraU) × Option FilaEdadesU =>
        (p.1.1.cedula_numero, p.1.1.corte)) hpl
  have h6 : (unirPaso6
        (unirPaso5
          (unirPaso4
            (unirPaso3 (unirPaso2 (unirPaso1 prestamos registro)) cartera)
            edades)
          plan)
        recaudos).map claveUnida
      = (unirPaso5
          (unirPaso4
            (unirPaso3 (unirPaso2 (unirPaso1 prestamos registro)) cartera)
            edades)
          plan).map (fun p => (p.1.1.1.cedula_numero, p.1.1.1.corte)) := by
    unfold unirPaso6 claveUnida
    exact mergeIzquierda_clave_preservada _ _ _ _
      (fun p : ((FilaBaseU × Option FilaCarteraU) × Option FilaEdadesU)
          × Option FilaPlanU =>
        (p.1.1.1.cedula_numero, p.1.1.1.corte)) hre
  have hcadena : (unirPaso6
        (unirPaso5
          (unirPaso4
            (unirPaso3 (unirPaso2 (unirPaso1 prestamos registro)) cartera)
            edades)
          plan)
        recaudos).map claveUnida
      = (unirPaso2 (unirPaso1 prestamos registro)).map
          (fun b => (b.cedula_numero, b.corte)) := by
    rw [h6, h5, h4, h3]
  have hsub : ((unir_datasets prestamos registro cartera edades plan
        recaudos excluidas).map claveUnida).Sublist
      ((unirPaso2 (unirPaso1 prestamos registro)).map
        (fun b => (b.cedula_numero, b.corte))) := by
    rw [← hcadena]
    exact List.Sublist.map claveUnida (List.filter_sublist _)
  refine ⟨rfl, hsub, hsub.nodup hbase, ?_⟩
  intro p hp
  have := (List.mem_filter.mp hp).2
  simpa using this

/-- Concrete loan-master table for the union witness. -/
def prestamosEjemplo : List FilaPrestamo :=
  [⟨"4", some "123", some 1, 1000⟩, ⟨"5", none, none, 2000⟩]

/-- Concrete secondary-registry table with a duplicated loan number. -/
def registroEjemplo : List FilaRegistro :=
  [⟨"5", some "77", some 2⟩, ⟨"5", some "88", some 3⟩]

/-- Concrete portfolio table for the union witness. -/
def carteraEjemplo : List FilaCarteraU := [⟨"123-4", some 1, 45⟩]

/-- Concrete age-of-debt table for the union witness. -/
def edadesEjemplo : List FilaEdadesU := [⟨"123-4", 9⟩]

/-- Instantiation of `union_datasets_ordenada`: the backfilled key
`77-5` (customer id taken from the first registry record for loan 5) is
anti-joined away, leaving the single key `123-4` with its AsOfDate. -/
theorem union_datasets_ordenada_witness :
    ((unir_datasets prestamosEjemplo registroEjemplo carteraEjemplo
        edadesEjemplo [] [] ["77-5"]).map claveUnida)
      = [("123-4", some 1)] ∧
    ((unir_datasets prestamosEjemplo registroEjemplo carteraEjemplo
        edadesEjemplo [] [] ["77-5"]).map claveUnida).Nodup := by
  have h := union_datasets_ordenada prestamosEjemplo registroEjemplo
    carteraEjemplo edadesEjemplo [] [] ["77-5"]
    (by decide) (by decide) (by decide) (by decide) (by decide)
  exact ⟨by decide, h.2.2.1⟩
